import Mathlib

/-!
Shallow embedding of `mbta_tracker.py` (MBTA train tracker): the
resolution-and-aggregation pipeline that polls the MBTA v3 API and prints
grouped arrival predictions.

Conventions of the embedding:
* Python strings are Lean `String`s; character-level work is done on `String.data`
  (a `List Char`), whose operations reduce well in the kernel.
* Timestamps are modelled at one-second resolution as integer epoch seconds.
  `datetime.fromisoformat` is modelled on the timestamp shapes the MBTA feed
  emits (`YYYY-MM-DDTHH:MM:SS` plus a mandatory `±HH:MM` offset, after the
  code's `Z -> +00:00` replacement); every other shape is a parse failure,
  matching the code's `None` path (naive datetimes likewise end in the
  `except` branch and yield `None`).
* Python `None`-able strings are `Option String`; Python truthiness of a
  string (`if not x`) is the `truthy` predicate below.
* Network input is passed in explicitly: the poll tick takes the prediction
  responses as a function argument, and the transport model consumes a script
  of upstream responses.
-/

namespace Mbta

/-- Lowercase a string the way Python `str.lower` does on the ASCII names that
occur in this program (`Char.toLower` agrees with Python on ASCII). -/
def lowerChars (s : String) : List Char :=
  s.data.map Char.toLower

/-- Boolean test that a list of characters begins with the given pattern. -/
def beginsWith : List Char → List Char → Bool
  | [], _ => true
  | _ :: _, [] => false
  | a :: as, b :: bs => a = b && beginsWith as bs

/-- Boolean substring test, modelling Python `needle in hay` on strings. -/
def containsSub (needle : List Char) : List Char → Bool
  | [] => beginsWith needle []
  | c :: t => beginsWith needle (c :: t) || containsSub needle t

/-- Model of `iso_str.replace("Z", "+00:00")`: every occurrence of the
character `Z` is replaced by the six characters `+00:00`. -/
def replaceZ : List Char → List Char
  | [] => []
  | c :: t =>
    if c = 'Z' then '+' :: '0' :: '0' :: ':' :: '0' :: '0' :: replaceZ t
    else c :: replaceZ t

/-- Model of Python `s.split("-")`. -/
def splitOnDash : List Char → List (List Char)
  | [] => [[]]
  | c :: t =>
    if c = '-' then [] :: splitOnDash t
    else
      match splitOnDash t with
      | [] => [[c]]
      | h :: r => (c :: h) :: r

/-- Numeric value of a decimal digit character, `none` on a non-digit. -/
def digitVal (c : Char) : Option Nat :=
  if '0' ≤ c ∧ c ≤ '9' then some (c.toNat - '0'.toNat) else none

/-- Two-digit decimal number from two digit characters. -/
def num2 (a b : Char) : Option Nat := do
  let x ← digitVal a
  let y ← digitVal b
  pure (10 * x + y)

/-- Four-digit decimal number from four digit characters. -/
def num4 (a b c d : Char) : Option Nat := do
  let x ← num2 a b
  let y ← num2 c d
  pure (100 * x + y)

/-- Gregorian leap-year rule. -/
def isLeap (y : Nat) : Bool :=
  (y % 4 = 0 && y % 100 ≠ 0) || y % 400 = 0

/-- Number of days in a month (month is 1-based). -/
def daysInMonth (y m : Nat) : Nat :=
  if m = 2 then (if isLeap y then 29 else 28)
  else if m = 4 ∨ m = 6 ∨ m = 9 ∨ m = 11 then 30
  else 31

/-- Julian day number of a Gregorian calendar date (valid for year ≥ 1). -/
def jdn (y m d : Nat) : Nat :=
  let a := (14 - m) / 12
  let yy := y + 4800 - a
  let mm := m + 12 * a - 3
  d + (153 * mm + 2) / 5 + 365 * yy + yy / 4 - yy / 100 + yy / 400 - 32045

/-- Epoch seconds (UTC) of a naive date-time, before applying an offset.
The constant is the Julian day number of 1970-01-01 times 86400. -/
def epochSecs (y mo d h mi s : Nat) : Int :=
  Int.ofNat (jdn y mo d * 86400 + h * 3600 + mi * 60 + s) - 210866803200

/-- Model of `datetime.fromisoformat` restricted to the aware timestamp shape
this program feeds it (`YYYY-MM-DDTHH:MM:SS±HH:MM`), returning UTC epoch
seconds.  Any other shape is a parse failure; in the Python code those shapes
either raise inside the surrounding `try` or produce a naive datetime whose
subtraction raises, and both roads end in the same `None` result. -/
def fromisoformat : List Char → Option Int
  | [y1, y2, y3, y4, '-', m1, m2, '-', d1, d2, 'T',
     h1, h2, ':', n1, n2, ':', s1, s2, sg, o1, o2, ':', p1, p2] => do
    let y ← num4 y1 y2 y3 y4
    let mo ← num2 m1 m2
    let d ← num2 d1 d2
    let h ← num2 h1 h2
    let mi ← num2 n1 n2
    let s ← num2 s1 s2
    let oh ← num2 o1 o2
    let om ← num2 p1 p2
    if 1 ≤ y ∧ 1 ≤ mo ∧ mo ≤ 12 ∧ 1 ≤ d ∧ d ≤ daysInMonth y mo ∧
        h ≤ 23 ∧ mi ≤ 59 ∧ s ≤ 59 ∧ oh ≤ 23 ∧ om ≤ 59 then
      let naive := epochSecs y mo d h mi s
      let off : Int := Int.ofNat (oh * 3600 + om * 60)
      if sg = '+' then pure (naive - off)
      else if sg = '-' then pure (naive + off)
      else none
    else none
  | _ => none

/-- Model of `minutes_until(iso_str, now)` from `mbta_tracker.py`: `None` on a
falsy or unparsable input, otherwise `max 0 ⌊(target − now) / 60⌋`.  `now` is
the code's override parameter, in epoch seconds; `int(delta // 60)` on a float
of whole seconds is exactly `Int.fdiv`. -/
def minutes_until (iso_str : Option String) (now : Int) : Option Int :=
  match iso_str with
  | none => none
  | some s =>
    if s.data.isEmpty then none
    else
      match fromisoformat (replaceZ s.data) with
      | none => none
      | some target => some (max 0 (Int.fdiv (target - now) 60))

/-! Direction resolver (`get_route_direction_map`).  The JSON payload the
route query returns is modelled by a small JSON value type; everything the
Python `try` block can encounter (wrong nesting, lists, nulls …) is a shape of
this type. -/

/-- JSON-like value, as parsed from an upstream response body. -/
inductive JValue where
  | null
  | bool (b : Bool)
  | num (n : Int)
  | str (s : String)
  | arr (xs : List JValue)
  | obj (fs : List (String × JValue))

/-- String indexing `j[k]` on a JSON value: succeeds only on an object (on any
other shape Python raises, which the caller's `try` turns into the default).
Duplicate keys behave like Python's JSON decoding: the last one wins. -/
def jIndex (j : JValue) (k : String) : Option JValue :=
  match j with
  | .obj fs => fs.foldl (fun acc p => if p.1 = k then some p.2 else acc) none
  | _ => none

/-- The `data["data"]["attributes"]["direction_names"]` extraction inside the
`try` block of `get_route_direction_map`; `none` means the `except` branch. -/
def extract_direction_names (j : JValue) : Option JValue :=
  (jIndex j "data").bind fun d =>
    (jIndex d "attributes").bind fun a =>
      jIndex a "direction_names"

/-- Elements of a JSON array as strings; `none` if some element is not a
string (Python: `name.lower()` raises `AttributeError` outside any `try`). -/
def jvalueStrings : List JValue → Option (List String)
  | [] => some []
  | .str s :: t => (jvalueStrings t).map fun r => s :: r
  | _ :: _ => none

/-- What `for idx, name in enumerate(direction_names)` plus `name.lower()`
tolerates: arrays of strings; a string (iterating its characters); an object
(iterating its keys).  Anything else raises an uncaught exception, modelled as
`none`. -/
def iterAsStrings : JValue → Option (List String)
  | .arr xs => jvalueStrings xs
  | .str s => some (s.data.map fun c => String.mk [c])
  | .obj fs => some (fs.map Prod.fst)
  | _ => none

/-- Normalized direction mapping: the `result` dict of
`get_route_direction_map`, which always carries both keys. -/
structure DirectionMap where
  inbound : Nat
  outbound : Nat
deriving DecidableEq, Repr

/-- Index of the last label whose lowercasing equals `key`, mirroring
`mapping[name.lower()] = idx` in a dict (later assignments overwrite). -/
def lastIndexOfLower (names : List String) (key : List Char) : Option Nat :=
  names.enum.foldl (fun acc p => if lowerChars p.2 = key then some p.1 else acc) none

/-- Core of `get_route_direction_map` after the labels are in hand: explicit
mapping when both literal labels are present, otherwise the positional
heuristic `outbound := 0, inbound := 1` (the code's conditional expressions
`0 if len > 0 else 0` and `1 if len > 1 else 1` are constant). -/
def direction_map_from_names (names : List String) : DirectionMap :=
  match lastIndexOfLower names "inbound".data, lastIndexOfLower names "outbound".data with
  | some i, some o => ⟨i, o⟩
  | some _, none => ⟨1, 0⟩
  | none, _ => ⟨1, 0⟩

/-- Model of `get_route_direction_map` applied to the JSON body of the route
query (the cache layer is response-determined and dropped).  `none` models an
uncaught exception escaping the function. -/
def get_route_direction_map_resp (j : JValue) : Option DirectionMap :=
  let names :=
    match extract_direction_names j with
    | some v => v
    | none => JValue.arr [JValue.str "Outbound", JValue.str "Inbound"]
  (iterAsStrings names).map direction_map_from_names

/-! Station resolver (`find_station_parent_ids_for_routes`).  The `/stops`
responses are passed in as a function from route id to its stop records. -/

/-- One record of a `/stops` response: `s.get("id")`, `attrs.get("name", "")`
and `attrs.get("parent_station")`. -/
structure StopRec where
  id : String
  name : String
  parent_station : Option String
deriving DecidableEq, Repr

/-- The id a matching stop contributes: `parent if parent else s.get("id")`.
Python truthiness makes an empty-string parent fall back to the stop id too. -/
def preferredId (s : StopRec) : String :=
  match s.parent_station with
  | some p => if p.data.isEmpty then s.id else p
  | none => s.id

/-- Case-insensitive stop-name match, `name.lower() == station_name.lower()`. -/
def nameMatches (name station : String) : Bool :=
  lowerChars name = lowerChars station

/-- The nested for-loops of `find_station_parent_ids_for_routes`: every id the
code adds to the `parent_ids` set, in iteration order. -/
def collectParentIds (stopsOf : String → List StopRec) (station : String) :
    List String → List String
  | [] => []
  | rid :: rest =>
    ((stopsOf rid).filterMap fun s =>
      if nameMatches s.name station then some (preferredId s) else none)
      ++ collectParentIds stopsOf station rest

/-- Python string order (code-point lexicographic), via the character lists. -/
def strLe (a b : String) : Prop := a.data ≤ b.data

instance : DecidableRel strLe := fun a b =>
  (inferInstance : Decidable (a.data ≤ b.data))

instance : IsTotal String strLe := ⟨fun a b => le_total a.data b.data⟩

instance : IsTrans String strLe := ⟨fun _ _ _ h1 h2 => le_trans h1 h2⟩

/-- Model of `find_station_parent_ids_for_routes`: collect the preferred ids
of all name-matching stops across the routes, then `sorted(set(...))`. -/
def find_station_parent_ids_for_routes (stopsOf : String → List StopRec)
    (station_name : String) (route_ids : List String) : List String :=
  List.insertionSort strLe (collectParentIds stopsOf station_name route_ids).dedup

/-! Transport (`mbta_get`).  The network is a script of upstream responses,
one consumed per `SESSION.get`; response bodies are opaque tokens.  The model
returns the list of sleeps performed and the final outcome. -/

/-- One scripted upstream response: an HTTP status (with the parsed
`Retry-After` header value, when the header is present and non-empty) and an
opaque body, or a network error (`requests.RequestException`). -/
inductive Resp where
  | http (code : Nat) (retryAfter : Option Nat) (body : Nat)
  | netErr
deriving DecidableEq, Repr

/-- Outcome of `mbta_get`: a parsed body, or the `{"data": [], "included": []}`
fallback. -/
inductive GetResult where
  | ok (body : Nat)
  | fallback
deriving DecidableEq, Repr

/-- The `for attempt in range(3)` loop of `mbta_get`, with `k` attempts left.
A 429 sleeps (`Retry-After` if present, else 1) and continues the loop — which
advances `attempt`; a non-2xx status raises in `raise_for_status` and a network
error raises directly, both caught: the last attempt returns the fallback,
earlier ones sleep 1 and continue; a success returns the body.  Script
exhaustion is modelled as a network error on the GET itself. -/
def mbta_get_run : List Resp → Nat → List Nat × GetResult
  | _, 0 => ([], .fallback)
  | [], Nat.succ k =>
    if k = 0 then ([], .fallback)
    else
      let r := mbta_get_run [] k
      (1 :: r.1, r.2)
  | .netErr :: rest, Nat.succ k =>
    if k = 0 then ([], .fallback)
    else
      let r := mbta_get_run rest k
      (1 :: r.1, r.2)
  | .http code ra body :: rest, Nat.succ k =>
    if code = 429 then
      let w := ra.getD 1
      let r := mbta_get_run rest k
      (w :: r.1, r.2)
    else if 400 ≤ code then
      if k = 0 then ([], .fallback)
      else
        let r := mbta_get_run rest k
        (1 :: r.1, r.2)
    else ([], .ok body)

/-- Model of `mbta_get` on a response script: three total attempts. -/
def mbta_get (script : List Resp) : List Nat × GetResult :=
  mbta_get_run script 3

/-! Prediction aggregator and presenter loop body (`main`).  One poll tick is
a pure function of the resolved targets, the prediction responses (passed as a
function from parent id and route list to a response) and the current time. -/

/-- One record of a `/predictions` response, with the fields `main` reads:
`relationships.route.data.id`, `relationships.trip.data.id`,
`attributes.arrival_time`, `attributes.departure_time`.  A missing hop in the
relationship chain yields `none`. -/
structure Pred where
  route_id : Option String
  trip_id : Option String
  arrival_time : Option String
  departure_time : Option String
deriving DecidableEq, Repr

/-- One entry of the `included` array: `inc.get("type")`, `inc["id"]`,
`inc.get("attributes", {}).get("headsign", "")`. -/
structure IncludedRec where
  type : String
  id : String
  headsign : String
deriving DecidableEq, Repr

/-- A `/predictions` response body: `data` and `included`. -/
structure PredResp where
  data : List Pred
  included : List IncludedRec
deriving DecidableEq, Repr

/-- One entry of `resolved_targets` in `main`. -/
structure Target where
  station_name : String
  routes : List String
  parent_ids : List String
deriving DecidableEq, Repr

/-- Python truthiness of an optional string: `None` and `""` are falsy. -/
def truthy : Option String → Bool
  | none => false
  | some s => !s.data.isEmpty

/-- Python `a or b` on optional strings. -/
def pyOr (a b : Option String) : Option String :=
  if truthy a then a else b

/-- The `trip_headsign` dict built from `included` (only `type == "trip"`
entries; later duplicate ids overwrite earlier ones). -/
def tripDict (included : List IncludedRec) : List (String × String) :=
  (included.filter fun i => i.type = "trip").map fun i => (i.id, i.headsign)

/-- `trip_headsign.get(trip_id, "")` with a possibly-`None` key. -/
def dictGetD (d : List (String × String)) (k : Option String) : String :=
  match k with
  | none => ""
  | some key => (d.foldl (fun acc p => if p.1 = key then some p.2 else acc) none).getD ""

/-- Model of `is_green_branch` / `rid.startswith("Green-")`. -/
def is_green_branch (route_id : String) : Bool :=
  beginsWith "Green-".data route_id.data

/-- The Green branch-tag step of `main`: take `rid.split("-")[1]` (an
`IndexError` would be swallowed by the surrounding `try`, modelled by the
`none` arm) and append `" (branch)"` when the headsign is truthy and does not
already contain `"(branch)"`. -/
def greenTagHeadsign (rid : String) (hs : String) : String :=
  match (splitOnDash rid.data).get? 1 with
  | none => hs
  | some branch =>
    if !hs.data.isEmpty && !containsSub ('(' :: (branch ++ [')'])) hs.data then
      String.mk (hs.data ++ (' ' :: '(' :: (branch ++ [')'])))
    else hs

/-- Per-record processing inside the prediction loop of `main`: the guards
(`not rid or not iso`, unparsable timestamp), the minutes computation, the
display-group collapse and the headsign resolution.  `some (group, minutes,
headsign)` is what gets appended to the group's bucket; `none` means the
record is skipped. -/
def processPred (now : Int) (trips : List (String × String)) (p : Pred) :
    Option (String × Int × String) :=
  let rid? := p.route_id
  let iso? := pyOr p.arrival_time p.departure_time
  if truthy rid? && truthy iso? then
    match minutes_until iso? now with
    | none => none
    | some mins =>
      let rid := rid?.getD ""
      let display_rid := if is_green_branch rid then "Green" else rid
      let hs0 := dictGetD trips p.trip_id
      let hs := if is_green_branch rid then greenTagHeadsign rid hs0 else hs0
      some (display_rid, mins, hs)
  else none

/-- The `buckets` dict, as an insertion-ordered association list. -/
abbrev Buckets := List (String × List (Int × String))

/-- `buckets.setdefault(display_rid, []).append((mins, hs))`. -/
def bucketAdd (b : Buckets) (k : String) (v : Int × String) : Buckets :=
  if (b.map Prod.fst).contains k then
    b.map fun p => if p.1 = k then (p.1, p.2 ++ [v]) else p
  else b ++ [(k, [v])]

/-- Key membership `k in buckets`. -/
def bucketMem (b : Buckets) (k : String) : Bool :=
  (b.map Prod.fst).contains k

/-- `buckets[k]`, with `[]` for a missing key (only used on present keys). -/
def bucketGet (b : Buckets) (k : String) : List (Int × String) :=
  match b.find? fun p => p.1 = k with
  | some p => p.2
  | none => []

/-- Bucket accumulation for one station: fold the prediction responses of all
its parent ids, appending each processed record to its display group. -/
def stationBuckets (now : Int) (fetch : String → List String → PredResp)
    (t : Target) : Buckets :=
  t.parent_ids.foldl
    (fun buckets pid =>
      let resp := fetch pid t.routes
      let trips := tripDict resp.included
      resp.data.foldl
        (fun b p =>
          match processPred now trips p with
          | some khm => bucketAdd b khm.1 khm.2
          | none => b)
        buckets)
    []

/-- The fixed presentation order of display groups in `main`. -/
def route_order : List String := ["Blue", "Orange", "Red", "Green"]

/-- The configured per-bucket display cap. -/
def MAX_PREDICTIONS_PER_BUCKET : Nat := 3

/-- The poll interval (seconds). -/
def POLL_SECONDS : Nat := 30

/-- Sort key `lambda x: x[0]` of the bucket sort. -/
def byMinutes (a b : Int × String) : Prop := a.1 ≤ b.1

instance : DecidableRel byMinutes := fun a b =>
  (inferInstance : Decidable (a.1 ≤ b.1))

instance : IsTotal (Int × String) byMinutes := ⟨fun a b => Int.le_total a.1 b.1⟩

instance : IsTrans (Int × String) byMinutes := ⟨fun _ _ _ h1 h2 => le_trans h1 h2⟩

/-- `sorted(set(bucket), key=lambda x: x[0])[:MAX_PREDICTIONS_PER_BUCKET]`:
exact duplicates removed, stable sort ascending by minutes, truncate. -/
def finalizeBucket (l : List (Int × String)) : List (Int × String) :=
  (List.insertionSort byMinutes l.dedup).take MAX_PREDICTIONS_PER_BUCKET

/-- The printed block of one station in one tick: the station name and, for
each group of `route_order` present in the buckets, its finalized entries. -/
def stationOutput (now : Int) (fetch : String → List String → PredResp)
    (t : Target) : String × List (String × List (Int × String)) :=
  let buckets := stationBuckets now fetch t
  (t.station_name,
    (route_order.filter fun r => bucketMem buckets r).map
      fun r => (r, finalizeBucket (bucketGet buckets r)))

/-- One poll tick of `main`: stations in configured order, those with no
resolved parent ids skipped (`continue`). -/
def tick (now : Int) (fetch : String → List String → PredResp)
    (targets : List Target) : List (String × List (String × List (Int × String))) :=
  (targets.filter fun t => !t.parent_ids.isEmpty).map (stationOutput now fetch)

/-! Startup resolution and the fatal-exit condition of `main`. -/

/-- One entry of the `CONFIG` list. -/
structure ConfigItem where
  station_name : String
  routes : List String
  directions : List String
deriving DecidableEq, Repr

/-- The configured stations, as in the source. -/
def CONFIG : List ConfigItem :=
  [⟨"Bowdoin", ["Blue"], ["outbound"]⟩,
   ⟨"Haymarket", ["Orange"], ["inbound", "outbound"]⟩,
   ⟨"Park Street", ["Red", "Green-B", "Green-C", "Green-D", "Green-E"],
     ["inbound", "outbound"]⟩,
   ⟨"Government Center", ["Green-B", "Green-C", "Green-D", "Green-E"],
     ["inbound", "outbound"]⟩]

/-- The startup resolution loop of `main`: each configured station is resolved
through the station resolver (abstracted as `resolve`). -/
def resolveTargets (resolve : String → List String → List String)
    (config : List ConfigItem) : List Target :=
  config.map fun c => ⟨c.station_name, c.routes, resolve c.station_name c.routes⟩

/-- Startup of `main`: `sys.exit(1)` (the `error` outcome) exactly when every
resolved target has an empty `parent_ids` list, otherwise the process goes on
polling with the resolved targets. -/
def startup (resolve : String → List String → List String)
    (config : List ConfigItem) : Except Unit (List Target) :=
  let targets := resolveTargets resolve config
  if targets.all fun t => t.parent_ids.length = 0 then Except.error ()
  else Except.ok targets

/-! Concrete scenario data used to instantiate the theorems below. -/

/-- The stop records of the spec's station-resolution example, served for any
route id. -/
def parkStops : String → List StopRec := fun _ =>
  [⟨"place-pktrm", "Park Street", none⟩,
   ⟨"70105", "Park Street", some "place-pktrm"⟩,
   ⟨"random", "Other", none⟩]

/-- A prediction that arrives five minutes after the epoch, on the Red line. -/
def dupPred : Pred := ⟨some "Red", none, some "1970-01-01T00:05:00Z", none⟩

/-- A response carrying four byte-identical copies of the same prediction. -/
def dupFetch : String → List String → PredResp := fun _ _ =>
  ⟨[dupPred, dupPred, dupPred, dupPred], []⟩

/-- A resolved Red-line target. -/
def dupTarget : Target := ⟨"Park Street", ["Red"], ["place-pktrm"]⟩

/-- A response with predictions on two Green branches whose trips share the
headsign "Government Center". -/
def greenFetch : String → List String → PredResp := fun _ _ =>
  ⟨[⟨some "Green-B", some "tb", some "1970-01-01T00:01:30Z", none⟩,
    ⟨some "Green-C", some "tc", some "1970-01-01T00:02:30Z", none⟩],
   [⟨"trip", "tb", "Government Center"⟩, ⟨"trip", "tc", "Government Center"⟩]⟩

/-- A resolved target covering the two Green branches above. -/
def greenTarget : Target := ⟨"Park Street", ["Green-B", "Green-C"], ["place-pktrm"]⟩

/-- A Green-branch prediction whose trip is absent from `included`, so its
headsign resolves to the empty default. -/
def greenNoTripPred : Pred := ⟨some "Green-B", none, some "1970-01-01T00:02:00Z", none⟩

/-- A response with one prediction on the Mattapan line, which is outside the
hard-coded presentation order. -/
def mattapanFetch : String → List String → PredResp := fun _ _ =>
  ⟨[⟨some "Mattapan", none, some "1970-01-01T00:04:00Z", none⟩], []⟩

/-- A resolved Mattapan-line target. -/
def mattapanTarget : Target := ⟨"Ashmont", ["Mattapan"], ["place-asmnl"]⟩

/-- A station resolver that finds nothing for any station. -/
def noneResolve : String → List String → List String := fun _ _ => []

/-- A target whose station resolved to no parent ids. -/
def emptyTarget : Target := ⟨"Bowdoin", ["Blue"], []⟩

end Mbta

namespace Mbta

/-! Helper lemmas. -/

/-- Membership in the ids collected by the station resolver loops. -/
theorem mem_collectParentIds (stopsOf : String → List StopRec) (station : String)
    (route_ids : List String) (x : String) :
    x ∈ collectParentIds stopsOf station route_ids ↔
      ∃ rid ∈ route_ids, ∃ s ∈ stopsOf rid,
        nameMatches s.name station = true ∧ x = preferredId s := by
  induction route_ids with
  | nil => simp [collectParentIds]
  | cons rid rest ih =>
    simp only [collectParentIds, List.mem_append, List.mem_filterMap, ih,
      List.mem_cons, Option.ite_none_right_eq_some, Option.some.injEq]
    constructor
    · rintro (⟨s, hs, hm, hx⟩ | ⟨r, hr, rest'⟩)
      · exact ⟨rid, Or.inl rfl, s, hs, hm, hx.symm⟩
      · exact ⟨r, Or.inr hr, rest'⟩
    · rintro ⟨r, hr | hr, s, hs, hm, hx⟩
      · exact Or.inl ⟨s, hr ▸ hs, hm, hx.symm⟩
      · exact Or.inr ⟨r, hr, s, hs, hm, hx⟩

/-- The station line of a station's output block is its configured name. -/
theorem stationOutput_fst (now : Int) (fetch : String → List String → PredResp)
    (t : Target) : (stationOutput now fetch t).1 = t.station_name := rfl

/-- The group keys of a station's output block are the presentation order
filtered to the keys present in the buckets. -/
theorem stationOutput_keys (now : Int) (fetch : String → List String → PredResp)
    (t : Target) :
    (stationOutput now fetch t).2.map Prod.fst =
      route_order.filter fun r => bucketMem (stationBuckets now fetch t) r := by
  simp only [stationOutput, List.map_map]
  exact List.map_id _

/-- Length of a finalized bucket: the display cap capped by the number of
distinct accumulated pairs. -/
theorem finalizeBucket_length (l : List (Int × String)) :
    (finalizeBucket l).length = min MAX_PREDICTIONS_PER_BUCKET l.dedup.length := by
  simp only [finalizeBucket, List.length_take]
  rw [(List.perm_insertionSort byMinutes l.dedup).length_eq]

/-- The startup of `main` reports the fatal condition exactly when every
configured station resolves to no parent ids. -/
theorem startup_error_iff (resolve : String → List String → List String)
    (config : List ConfigItem) :
    startup resolve config = Except.error () ↔
      ∀ c ∈ config, resolve c.station_name c.routes = [] := by
  simp only [startup]
  split
  · rename_i h
    constructor
    · intro _ c hc
      have hm : (⟨c.station_name, c.routes, resolve c.station_name c.routes⟩ : Target)
          ∈ resolveTargets resolve config := by
        simp only [resolveTargets, List.mem_map]
        exact ⟨c, hc, rfl⟩
      have hx := List.all_eq_true.mp h _ hm
      simpa [List.length_eq_zero] using hx
    · intro _
      rfl
  · rename_i h
    constructor
    · intro he
      exact absurd he (by simp)
    · intro hall
      exfalso
      apply h
      apply List.all_eq_true.mpr
      intro t ht
      simp only [resolveTargets, List.mem_map] at ht
      obtain ⟨c, hc, rfl⟩ := ht
      simp [hall c hc]

/-! Claim theorems. -/

/-- C1, amended: for every timestamp string, `minutes_until` computes UTC
`floor((timestamp − now) / 60 s)` clamped to a minimum of 0 — a timestamp 60
seconds in the future yields 1 (floor of exactly one minute), 61 seconds in
the future yields 1, any past timestamp yields 0, and a null or unparsable
input yields no value rather than raising. -/
theorem C1_minutes_until_spec :
    (∀ (s : String) (t now : Int), fromisoformat (replaceZ s.data) = some t →
        minutes_until (some s) now = some (max 0 (Int.fdiv (t - now) 60))) ∧
    (∀ (s : String) (now : Int), fromisoformat (replaceZ s.data) = none →
        minutes_until (some s) now = none) ∧
    (∀ now : Int, minutes_until none now = none) ∧
    minutes_until (some "1970-01-01T00:01:00Z") 0 = some 1 ∧
    minutes_until (some "1970-01-01T00:01:01Z") 0 = some 1 ∧
    minutes_until (some "1969-12-31T23:00:00Z") 0 = some 0 ∧
    minutes_until (some "garbage") 0 = none := by
  refine ⟨?_, ?_, fun _ => rfl, by decide, by decide, by decide, by decide⟩
  · intro s t now h
    have he : ¬ s.data.isEmpty = true := by
      intro he
      rw [List.isEmpty_iff.mp he] at h
      exact Option.noConfusion h
    simp only [minutes_until, if_neg he, h]
  · intro s now h
    by_cases he : s.data.isEmpty = true
    · simp [minutes_until, he]
    · simp only [minutes_until, if_neg he, h]

/-- C1 counterexample to the claim as stated: a timestamp exactly 60 seconds
in the future yields 1, not 0 (`int(60.0 // 60) == 1`). -/
theorem C1_counterexample :
    minutes_until (some "1970-01-01T00:01:00Z") 0 = some 1 ∧ (1 : Int) ≠ 0 := by
  decide

/-- C1 witness: the general floor-clamp clause instantiated at a concrete
timestamp two minutes in the future. -/
theorem C1_witness : minutes_until (some "1970-01-01T00:02:00Z") 0 = some 2 := by
  have h := C1_minutes_until_spec.1 "1970-01-01T00:02:00Z" 120 0 (by decide)
  rw [h]
  decide

/-- C4: station resolution returns the sorted, deduplicated union over all
supplied routes of, for each stop whose public name matches the station name
case-insensitively, the parent-station id when present else the stop's own
id; on the spec's three-stop example it returns exactly `["place-pktrm"]`. -/
theorem C4_station_resolution :
    (∀ (stopsOf : String → List StopRec) (station : String) (route_ids : List String),
        (find_station_parent_ids_for_routes stopsOf station route_ids).Sorted strLe ∧
        (find_station_parent_ids_for_routes stopsOf station route_ids).Nodup ∧
        ∀ x, x ∈ find_station_parent_ids_for_routes stopsOf station route_ids ↔
          ∃ rid ∈ route_ids, ∃ s ∈ stopsOf rid,
            nameMatches s.name station = true ∧ x = preferredId s) ∧
    find_station_parent_ids_for_routes parkStops "Park Street" ["Red"] =
      ["place-pktrm"] := by
  refine ⟨fun stopsOf station route_ids =>
    ⟨List.sorted_insertionSort strLe _, ?_, fun x => ?_⟩, by decide⟩
  · exact ((List.perm_insertionSort strLe _).nodup_iff).mpr (List.nodup_dedup _)
  · unfold find_station_parent_ids_for_routes
    rw [(List.perm_insertionSort strLe _).mem_iff, List.mem_dedup]
    exact mem_collectParentIds stopsOf station route_ids x

/-- C4 witness: the membership characterization instantiated on the spec's
example, exhibiting the matching parent-less stop. -/
theorem C4_witness :
    "place-pktrm" ∈ find_station_parent_ids_for_routes parkStops "Park Street" ["Red"] := by
  have h := (C4_station_resolution.1 parkStops "Park Street" ["Red"]).2.2 "place-pktrm"
  exact h.mpr ⟨"Red", by decide, ⟨"place-pktrm", "Park Street", none⟩, by decide,
    by decide, by decide⟩

/-- C5: when the labels contain both "inbound" and "outbound"
case-insensitively, each semantic key maps to that label's array position
(labels `[0] = "Outbound", [1] = "Inbound"` give `outbound := 0,
inbound := 1`); otherwise the positional heuristic returns `outbound := 0,
inbound := 1` regardless of the labels' text. -/
theorem C5_direction_map :
    (∀ (names : List String) (i o : Nat),
        lastIndexOfLower names "inbound".data = some i →
        lastIndexOfLower names "outbound".data = some o →
        direction_map_from_names names = ⟨i, o⟩) ∧
    (∀ names : List String,
        (lastIndexOfLower names "inbound".data = none ∨
          lastIndexOfLower names "outbound".data = none) →
        direction_map_from_names names = ⟨1, 0⟩) ∧
    direction_map_from_names ["Outbound", "Inbound"] = ⟨1, 0⟩ := by
  refine ⟨?_, ?_, by decide⟩
  · intro names i o hi ho
    unfold direction_map_from_names
    rw [hi, ho]
  · intro names h
    unfold direction_map_from_names
    rcases h with h | h
    · rw [h]
    · rw [h]
      cases lastIndexOfLower names "inbound".data <;> rfl

/-- C5 witness: both clauses instantiated — explicit labels
`["Outbound", "Inbound"]`, and heuristic labels `["North", "South"]`. -/
theorem C5_witness :
    direction_map_from_names ["Outbound", "Inbound"] = ⟨1, 0⟩ ∧
    direction_map_from_names ["North", "South"] = ⟨1, 0⟩ :=
  ⟨C5_direction_map.1 ["Outbound", "Inbound"] 1 0 (by decide) (by decide),
   C5_direction_map.2.1 ["North", "South"] (Or.inl (by decide))⟩

/-- C6, amended: whenever the `direction_names` extraction fails (missing or
wrongly-nested data, including the transport's empty-list fallback body), the
resolver falls back to the literal default `["Outbound", "Inbound"]`, applies
the positional heuristic, and returns integer positions for both keys
(`inbound := 1, outbound := 0`) without raising.  (A response whose extracted
`direction_names` is not an iterable of strings can still raise — see the
counterexample.) -/
theorem C6_direction_fallback :
    (∀ j : JValue, extract_direction_names j = none →
        get_route_direction_map_resp j = some ⟨1, 0⟩) ∧
    get_route_direction_map_resp
      (JValue.obj [("data", JValue.arr []), ("included", JValue.arr [])]) =
      some ⟨1, 0⟩ := by
  refine ⟨?_, by decide⟩
  intro j h
  simp only [get_route_direction_map_resp, h]
  rfl

/-- C6 counterexample to the claim as stated: a 200 response whose
`direction_names` is the number 5 extracts successfully, and then
`enumerate(5)` raises `TypeError` outside any `try` — the resolver does not
return a mapping (modelled by `none`), contradicting "never raises" for
malformed data "of any shape". -/
theorem C6_counterexample :
    get_route_direction_map_resp
      (JValue.obj [("data", JValue.obj [("attributes",
        JValue.obj [("direction_names", JValue.num 5)])])]) = none := by
  decide

/-- C6 witness: the fallback clause instantiated at a null response body. -/
theorem C6_witness : get_route_direction_map_resp JValue.null = some ⟨1, 0⟩ :=
  C6_direction_fallback.1 JValue.null rfl

/-- C7, amended: on HTTP 429 the transport sleeps for the server-provided
Retry-After delay when present (else 1 second) and retries — but such a retry
consumes one of the same 3 total attempts, so three consecutive 429 responses
exhaust the budget and yield the empty fallback without reaching a later
success. -/
theorem C7_429_retry :
    (∀ (ra : Option Nat) (body : Nat) (rest : List Resp) (k : Nat),
        mbta_get_run (Resp.http 429 ra body :: rest) (k + 1) =
          (ra.getD 1 :: (mbta_get_run rest k).1, (mbta_get_run rest k).2)) ∧
    mbta_get [Resp.http 429 (some 7) 0, Resp.http 429 none 0,
      Resp.http 429 (some 2) 0, Resp.http 200 none 42] =
      ([7, 1, 2], GetResult.fallback) := by
  refine ⟨?_, by decide⟩
  intro ra body rest k
  rfl

/-- C2, amended: every display group emitted in a poll tick carries exactly
the finalization of its accumulated (minutes, headsign) pairs — exact
duplicates removed, sorted ascending by minutes, truncated to the configured
maximum (3) — so no displayed bucket exceeds the maximum, and when more
distinct pairs than the maximum were accumulated, exactly the maximum number
of entries is output. -/
theorem C2_bucket_finalization :
    (∀ (now : Int) (fetch : String → List String → PredResp) (t : Target)
        (g : String) (items : List (Int × String)),
        (g, items) ∈ (stationOutput now fetch t).2 →
        items = finalizeBucket (bucketGet (stationBuckets now fetch t) g)) ∧
    (∀ (now : Int) (fetch : String → List String → PredResp)
        (targets : List Target) (entry : String × List (String × List (Int × String))),
        entry ∈ tick now fetch targets →
        ∃ t ∈ targets, entry = stationOutput now fetch t) ∧
    (∀ l : List (Int × String),
        (finalizeBucket l).Sorted byMinutes ∧
        (finalizeBucket l).Nodup ∧
        (∀ x ∈ finalizeBucket l, x ∈ l) ∧
        (finalizeBucket l).length ≤ MAX_PREDICTIONS_PER_BUCKET ∧
        (MAX_PREDICTIONS_PER_BUCKET < l.dedup.length →
          (finalizeBucket l).length = MAX_PREDICTIONS_PER_BUCKET)) ∧
    MAX_PREDICTIONS_PER_BUCKET = 3 := by
  refine ⟨?_, ?_, ?_, rfl⟩
  · intro now fetch t g items hmem
    simp only [stationOutput, List.mem_map] at hmem
    obtain ⟨r, _, heq⟩ := hmem
    injection heq with h1 h2
    subst h1
    exact h2.symm
  · intro now fetch targets entry hmem
    simp only [tick, List.mem_map, List.mem_filter] at hmem
    obtain ⟨t, ⟨ht, _⟩, heq⟩ := hmem
    exact ⟨t, ht, heq.symm⟩
  · intro l
    refine ⟨?_, ?_, ?_, ?_, ?_⟩
    · exact List.Pairwise.sublist (List.take_sublist _ _)
        (List.sorted_insertionSort byMinutes l.dedup)
    · exact List.Nodup.sublist (List.take_sublist _ _)
        (((List.perm_insertionSort byMinutes l.dedup).nodup_iff).mpr
          (List.nodup_dedup l))
    · intro x hx
      have h1 := List.take_subset _ _ hx
      exact List.mem_dedup.mp
        ((List.perm_insertionSort byMinutes l.dedup).mem_iff.mp h1)
    · rw [finalizeBucket_length]
      exact min_le_left _ _
    · intro h
      rw [finalizeBucket_length]
      exact min_eq_left (le_of_lt h)

/-- C2 counterexample to the claim as stated: a bucket that accumulated four
predictions (more than the maximum 3), all byte-identical, emits one entry
after deduplication — not exactly the maximum. -/
theorem C2_counterexample :
    (bucketGet (stationBuckets 0 dupFetch dupTarget) "Red").length = 4 ∧
    MAX_PREDICTIONS_PER_BUCKET < 4 ∧
    tick 0 dupFetch [dupTarget] = [("Park Street", [("Red", [(5, "")])])] ∧
    [((5 : Int), "")].length ≠ MAX_PREDICTIONS_PER_BUCKET := by
  decide

/-- C2 witness: the output-equals-finalized-bucket clause instantiated on the
duplicate-prediction scenario. -/
theorem C2_witness :
    [((5 : Int), "")] =
      finalizeBucket (bucketGet (stationBuckets 0 dupFetch dupTarget) "Red") :=
  C2_bucket_finalization.1 0 dupFetch dupTarget "Red" [(5, "")] (by decide)

/-- C3, amended: a prediction whose route id starts with "Green-" is bucketed
under the shared display group "Green", any other under its own route id; and
for a Green-family record the branch tag is appended to the resolved headsign
when the headsign is non-empty and the tag is not already present — so two
branches in the same group carry distinguishing suffixes whenever their
headsigns resolve. -/
theorem C3_green_grouping :
    (∀ (now : Int) (trips : List (String × String)) (p : Pred) (g : String)
        (m : Int) (h : String), processPred now trips p = some (g, m, h) →
        (is_green_branch (p.route_id.getD "") = true → g = "Green") ∧
        (is_green_branch (p.route_id.getD "") = false → g = p.route_id.getD "")) ∧
    (∀ (rid hs : String) (branch : List Char),
        (splitOnDash rid.data).get? 1 = some branch →
        hs.data.isEmpty = false →
        containsSub ('(' :: (branch ++ [')'])) hs.data = false →
        greenTagHeadsign rid hs =
          String.mk (hs.data ++ (' ' :: '(' :: (branch ++ [')'])))) ∧
    tick 0 greenFetch [greenTarget] =
      [("Park Street", [("Green",
        [(1, "Government Center (B)"), (2, "Government Center (C)")])])] := by
  refine ⟨?_, ?_, by decide⟩
  · intro now trips p g m h hp
    simp only [processPred] at hp
    by_cases hc : (truthy p.route_id && truthy (pyOr p.arrival_time p.departure_time)) = true
    · rw [if_pos hc] at hp
      cases hm : minutes_until (pyOr p.arrival_time p.departure_time) now with
      | none =>
        rw [hm] at hp
        exact Option.noConfusion hp
      | some mins =>
        rw [hm] at hp
        simp only [Option.some.injEq, Prod.mk.injEq] at hp
        obtain ⟨hg, -, -⟩ := hp
        constructor
        · intro hgb
          rw [← hg, if_pos hgb]
        · intro hgb
          rw [← hg, if_neg (by rw [hgb]; exact Bool.false_ne_true)]
    · rw [if_neg hc] at hp
      exact Option.noConfusion hp
  · intro rid hs branch h1 h2 h3
    unfold greenTagHeadsign
    rw [h1]
    have hcond : (!hs.data.isEmpty && !containsSub ('(' :: (branch ++ [')'])) hs.data) = true := by
      rw [h2, h3]
      rfl
    exact if_pos hcond

/-- C3 counterexample to the claim as stated: a Green-B record whose trip id
is absent resolves to the empty headsign; the branch tag "(B)" is not present
in it, yet nothing is appended — the emitted headsign stays empty. -/
theorem C3_counterexample :
    processPred 0 [] greenNoTripPred = some ("Green", 2, "") ∧
    containsSub ('(' :: ('B' :: [')'])) [] = false := by
  decide

/-- C3 witness: the grouping clause and the tag clause instantiated on a
Green-B record with the headsign "Government Center". -/
theorem C3_witness :
    greenTagHeadsign "Green-B" "Government Center" = "Government Center (B)" := by
  have h := C3_green_grouping.2.1 "Green-B" "Government Center" ['B']
    (by decide) (by decide) (by decide)
  rw [h]
  decide

/-- C8: a poll tick is a pure function of its inputs — identical resolved
stations and identical prediction payloads give identical output — and the
output lists stations in the fixed configured order (unresolved ones skipped)
with each station's display groups in the fixed priority order. -/
theorem C8_deterministic_ordering :
    (∀ (now1 now2 : Int) (fetch1 fetch2 : String → List String → PredResp)
        (targets1 targets2 : List Target), now1 = now2 → fetch1 = fetch2 →
        targets1 = targets2 →
        tick now1 fetch1 targets1 = tick now2 fetch2 targets2) ∧
    (∀ (now : Int) (fetch : String → List String → PredResp) (targets : List Target),
        (tick now fetch targets).map Prod.fst =
          ((targets.filter fun t => !t.parent_ids.isEmpty).map Target.station_name)) ∧
    (∀ (now : Int) (fetch : String → List String → PredResp) (targets : List Target)
        (st : String) (groups : List (String × List (Int × String))),
        (st, groups) ∈ tick now fetch targets →
        List.Sublist (groups.map Prod.fst) route_order) := by
  refine ⟨?_, ?_, ?_⟩
  · intro now1 now2 fetch1 fetch2 targets1 targets2 h1 h2 h3
    rw [h1, h2, h3]
  · intro now fetch targets
    simp only [tick, List.map_map]
    rfl
  · intro now fetch targets st groups hmem
    simp only [tick, List.mem_map, List.mem_filter] at hmem
    obtain ⟨t, -, heq⟩ := hmem
    have hk : groups.map Prod.fst =
        route_order.filter fun r => bucketMem (stationBuckets now fetch t) r := by
      rw [show groups = (stationOutput now fetch t).2 from congrArg Prod.snd heq.symm]
      exact stationOutput_keys now fetch t
    rw [hk]
    exact List.filter_sublist _

/-- C8 witness: the group-priority clause instantiated on the
duplicate-prediction scenario. -/
theorem C8_witness :
    List.Sublist ([("Red", [((5 : Int), "")])].map Prod.fst) route_order :=
  C8_deterministic_ordering.2.2 0 dupFetch [dupTarget] "Park Street"
    [("Red", [(5, "")])] (by decide)

/-- C9: startup exits with status 1 (the error outcome) if and only if every
configured station resolves to zero parent ids; a station that resolved to
zero ids is skipped by every tick (removing it from the targets changes
nothing), and with at least one resolved station the process continues. -/
theorem C9_startup_fatal :
    (∀ (resolve : String → List String → List String) (config : List ConfigItem),
        startup resolve config = Except.error () ↔
          ∀ c ∈ config, resolve c.station_name c.routes = []) ∧
    (∀ (now : Int) (fetch : String → List String → PredResp)
        (l1 l2 : List Target) (t : Target), t.parent_ids = [] →
        tick now fetch (l1 ++ t :: l2) = tick now fetch (l1 ++ l2)) := by
  constructor
  · intro resolve config
    exact startup_error_iff resolve config
  · intro now fetch l1 l2 t ht
    simp only [tick, List.filter_append]
    rw [List.filter_cons_of_neg]
    simp [ht]

/-- C9 witness: both clauses instantiated — a resolver that finds nothing for
every configured station makes startup fatal, and a target with no resolved
parent ids contributes nothing to a tick. -/
theorem C9_witness :
    startup noneResolve CONFIG = Except.error () ∧
    tick 0 dupFetch ([] ++ emptyTarget :: [dupTarget]) =
      tick 0 dupFetch ([] ++ [dupTarget]) :=
  ⟨(C9_startup_fatal.1 noneResolve CONFIG).mpr (fun _ _ => rfl),
   C9_startup_fatal.2 0 dupFetch [] [dupTarget] emptyTarget rfl⟩

/-- C10: only the display groups "Blue", "Orange", "Red" and "Green" can be
emitted by a tick; a prediction on any other route (here Mattapan) is
accumulated into a bucket keyed by its own route id but never printed,
because the presenter iterates the hard-coded four-element priority list. -/
theorem C10_priority_list_only :
    (∀ (now : Int) (fetch : String → List String → PredResp) (targets : List Target)
        (st : String) (groups : List (String × List (Int × String))) (g : String),
        (st, groups) ∈ tick now fetch targets → g ∈ groups.map Prod.fst →
        g ∈ route_order) ∧
    bucketMem (stationBuckets 0 mattapanFetch mattapanTarget) "Mattapan" = true ∧
    tick 0 mattapanFetch [mattapanTarget] = [("Ashmont", [])] := by
  refine ⟨?_, by decide, by decide⟩
  intro now fetch targets st groups g hmem hg
  simp only [tick, List.mem_map, List.mem_filter] at hmem
  obtain ⟨t, -, heq⟩ := hmem
  rw [show groups = (stationOutput now fetch t).2 from congrArg Prod.snd heq.symm,
    stationOutput_keys now fetch t] at hg
  exact List.mem_of_mem_filter hg

/-- C10 witness: the only-priority-groups clause instantiated on the
duplicate-prediction scenario, placing "Red" in the priority list. -/
theorem C10_witness : "Red" ∈ route_order :=
  C10_priority_list_only.1 0 dupFetch [dupTarget] "Park Street"
    [("Red", [(5, "")])] "Red" (by decide) (by decide)

/-- C7 counterexample to the claim as stated: after three consecutive 429
responses the transport does not still have its 3 generic attempts — it
returns the fallback and never consumes the scripted success. -/
theorem C7_counterexample :
    (mbta_get [Resp.http 429 none 0, Resp.http 429 none 0, Resp.http 429 none 0,
      Resp.http 200 none 42]).2 = GetResult.fallback ∧
    GetResult.fallback ≠ GetResult.ok 42 := by
  decide

end Mbta
